import Mathlib

/-!
Verification of the entry point of the sdl3-text repository.

The visible source is `src/main.cpp`:

  auto main() -> int
  {
      std::println("Current working dir: {}",
                   std::filesystem::current_path().generic_string());
      auto app = project::application({ 800, 600, "SDL3 C++ 23 Text" },
                                      { SDL_GPU_SHADERFORMAT_SPIRV });
      return app.run();
  }

We embed `main` shallowly as a function from its environment (the current
working directory, as observed through `std::filesystem::current_path`,
and the behaviour of the opaque `project::application` collaborator) to
the trace of observable events it performs and the value it returns.
The `application` class itself is not part of the visible source; its
interface (construction may fail, `run` blocks and returns an `int`,
failures propagate by the application's own convention) is modelled from
the spec.
-/

/-- The window configuration aggregate `{ width, height, title }` passed to
the `project::application` constructor in `main.cpp`. -/
structure window_description where
  width : Nat
  height : Nat
  title : String
deriving DecidableEq, Repr

/-- SDL3 shader-format flag bit for private formats (`1u << 0`). -/
def SDL_GPU_SHADERFORMAT_PRIVATE : Nat := 1

/-- SDL3 shader-format flag bit for SPIR-V (`1u << 1`), the value named in
`main.cpp`. -/
def SDL_GPU_SHADERFORMAT_SPIRV : Nat := 2

/-- SDL3 shader-format flag bit for DXBC (`1u << 2`). -/
def SDL_GPU_SHADERFORMAT_DXBC : Nat := 4

/-- SDL3 shader-format flag bit for DXIL (`1u << 3`). -/
def SDL_GPU_SHADERFORMAT_DXIL : Nat := 8

/-- SDL3 shader-format flag bit for MSL (`1u << 4`). -/
def SDL_GPU_SHADERFORMAT_MSL : Nat := 16

/-- SDL3 shader-format flag bit for Metal libraries (`1u << 5`). -/
def SDL_GPU_SHADERFORMAT_METALLIB : Nat := 32

/-- Modelled from the spec: the result of
`std::filesystem::current_path()`, an absolute filesystem path.  The
implementation of `current_path` is not part of this repository; the spec
describes its rendered form as a normalized absolute path.  An absolute
path is an optional root name (empty on POSIX, a drive such as `C:` on
Windows) followed by a root directory and a list of components. -/
structure fs_path where
  rootName : String
  components : List String
deriving DecidableEq, Repr

/-- Modelled from the spec: `std::filesystem::path::generic_string`, which
renders a path "using forward-slash-style generic separators regardless of
host path conventions": the root name, then the root directory `/`, then
the components joined by `/`. -/
def fs_path.generic_string (p : fs_path) : String :=
  p.rootName ++ "/" ++ String.intercalate "/" p.components

/-- An observable event performed by `main`: printing a line to standard
output, invoking the `project::application` constructor with a window
configuration and a shader-format flag set, or invoking `run` on the
constructed application. -/
inductive Event where
  | println (line : String)
  | constructApp (wd : window_description) (formats : Nat)
  | runApp
deriving DecidableEq, Repr

/-- Whether an event is a print to standard output. -/
def Event.isPrintln : Event → Bool
  | .println _ => true
  | _ => false

/-- Whether an event is an invocation of the application constructor. -/
def Event.isConstruct : Event → Bool
  | .constructApp _ _ => true
  | _ => false

/-- Whether an event is an invocation of the application's `run`. -/
def Event.isRunApp : Event → Bool
  | .runApp => true
  | _ => false

/-- The window configuration literal `{ 800, 600, "SDL3 C++ 23 Text" }`
written in `main.cpp`. -/
def mainWindowDesc : window_description :=
  { width := 800, height := 600, title := "SDL3 C++ 23 Text" }

/-- The shader-format aggregate `{ SDL_GPU_SHADERFORMAT_SPIRV }` written in
`main.cpp`. -/
def mainFormats : Nat := SDL_GPU_SHADERFORMAT_SPIRV

/-- Embedding of `main` from `main.cpp` in the run where the application's
construction and `run` both complete normally.  `cwd` is the current
working directory observed through `current_path`; `runResult` is the
integer returned by `app.run()` (the application is opaque, so its return
value is a parameter).  The result is the trace of observable events in
the order `main` performs them, paired with the value `main` returns. -/
def mainRun (cwd : fs_path) (runResult : Int) : List Event × Int :=
  ([Event.println ("Current working dir: " ++ cwd.generic_string),
    Event.constructApp mainWindowDesc mainFormats,
    Event.runApp], runResult)

/-- The process-level view of `main`: the OS hands the process a
command-line argument vector, but `main` is declared as `auto main() -> int`
with no parameters, so the arguments are not consumed. -/
def processRun (cwd : fs_path) (args : List String) (runResult : Int) :
    List Event × Int :=
  mainRun cwd runResult

/-- Embedding of `main` extended with failure, modelled from the spec:
"any failure inside construction or `run` propagates according to whatever
error-signaling convention the application uses"; `main` contains no
try/catch and no result-checking.  `ctorResult` is the outcome of the
`project::application` constructor and `runResult` the outcome of
`app.run()`, each either normal completion or an error of an abstract type
`ε`.  A propagating error ends the trace at the point it occurs and
becomes the outcome of `main` unchanged. -/
def mainRunExc (ε : Type) (cwd : fs_path) (ctorResult : Except ε Unit)
    (runResult : Except ε Int) : List Event × Except ε Int :=
  match ctorResult with
  | .error e =>
      ([Event.println ("Current working dir: " ++ cwd.generic_string),
        Event.constructApp mainWindowDesc mainFormats], .error e)
  | .ok _ =>
      match runResult with
      | .error e =>
          ([Event.println ("Current working dir: " ++ cwd.generic_string),
            Event.constructApp mainWindowDesc mainFormats,
            Event.runApp], .error e)
      | .ok v =>
          ([Event.println ("Current working dir: " ++ cwd.generic_string),
            Event.constructApp mainWindowDesc mainFormats,
            Event.runApp], .ok v)

/-- A rendered generic path is never the empty string: it always contains
at least the root-directory separator. -/
theorem fs_path.generic_string_ne_empty (p : fs_path) :
    p.generic_string ≠ "" := by
  intro h
  have hl := congrArg String.length h
  have hsep : "/".length = 1 := rfl
  rw [fs_path.generic_string, String.length_append, String.length_append,
    String.length_empty, hsep] at hl
  omega

/-- C1: the value returned by `main` is exactly the value returned by the
application's `run` operation, with no translation applied. -/
theorem main_exit_eq_run (cwd : fs_path) (r : Int) :
    (mainRun cwd r).2 = r := rfl

/-- C2: in every run, `main` prints exactly one line; that line is the
literal text `Current working dir: ` followed by the generic rendering of
the working directory, which is non-empty and joins its components with
forward slashes regardless of host conventions. -/
theorem main_prints_single_cwd_line (cwd : fs_path) (r : Int) :
    (mainRun cwd r).1.filter Event.isPrintln =
      [Event.println ("Current working dir: " ++ cwd.generic_string)] ∧
    cwd.generic_string ≠ "" ∧
    cwd.generic_string =
      cwd.rootName ++ "/" ++ String.intercalate "/" cwd.components :=
  ⟨rfl, fs_path.generic_string_ne_empty cwd, rfl⟩

/-- C3: in every execution, regardless of working directory, command-line
arguments, or the application's run result, the application constructor is
invoked exactly once, with width 800, height 600, title "SDL3 C++ 23 Text",
and the single SPIR-V shader-format preference. -/
theorem main_constructs_once_with_fixed_config (cwd : fs_path)
    (args : List String) (r : Int) :
    (processRun cwd args r).1.filter Event.isConstruct =
      [Event.constructApp
        { width := 800, height := 600, title := "SDL3 C++ 23 Text" }
        SDL_GPU_SHADERFORMAT_SPIRV] := rfl

/-- C4: `run` is invoked exactly once whenever construction completes, and
never at all when construction fails; in particular it is never invoked
more than once. -/
theorem main_invokes_run_exactly_once (ε : Type) (cwd : fs_path)
    (c : Except ε Unit) (rr : Except ε Int) :
    ((mainRunExc ε cwd c rr).1.filter Event.isRunApp).length =
      (match c with | .ok _ => 1 | .error _ => 0) := by
  cases c <;> cases rr <;> rfl

/-- C5: the events of `main` occur in the fixed order: print the working
directory line, construct the application (with the configuration built
from the literals), invoke `run`, and return the value `run` produced as
the result of `main`. -/
theorem main_steps_in_order (cwd : fs_path) (r : Int) :
    mainRun cwd r =
      ([Event.println ("Current working dir: " ++ cwd.generic_string),
        Event.constructApp mainWindowDesc mainFormats,
        Event.runApp], r) := rfl

/-- C6: `main` contains no error handling: an error raised by the
application constructor, or by `run`, becomes the outcome of `main`
unchanged. -/
theorem main_propagates_errors (ε : Type) (cwd : fs_path) (e : ε)
    (rr : Except ε Int) :
    (mainRunExc ε cwd (Except.error e) rr).2 = Except.error e ∧
    (mainRunExc ε cwd (Except.ok ()) (Except.error e)).2 =
      Except.error e :=
  ⟨rfl, rfl⟩

/-- C7: `main` takes no parameters, so two process invocations that differ
only in their command-line arguments produce the identical trace (hence
identical printed output) and the identical return value. -/
theorem main_ignores_args (cwd : fs_path) (r : Int)
    (args₁ args₂ : List String) :
    processRun cwd args₁ r = processRun cwd args₂ r := rfl

/-- C8: the shader-format preference passed to the application constructor
is exactly `SDL_GPU_SHADERFORMAT_SPIRV` (the bit `2`), and none of the
other SDL3 shader-format bits are set in it. -/
theorem main_format_is_spirv_only (cwd : fs_path) (args : List String)
    (r : Int) :
    (processRun cwd args r).1.filter Event.isConstruct =
      [Event.constructApp mainWindowDesc SDL_GPU_SHADERFORMAT_SPIRV] ∧
    mainFormats = SDL_GPU_SHADERFORMAT_SPIRV ∧
    mainFormats &&&
      (SDL_GPU_SHADERFORMAT_PRIVATE ||| SDL_GPU_SHADERFORMAT_DXBC |||
       SDL_GPU_SHADERFORMAT_DXIL ||| SDL_GPU_SHADERFORMAT_MSL |||
       SDL_GPU_SHADERFORMAT_METALLIB) = 0 :=
  ⟨rfl, rfl, by decide⟩

/-- C9: the working-directory line is the first event of every execution,
including the executions in which construction or `run` fails. -/
theorem main_prints_cwd_line_first (ε : Type) (cwd : fs_path)
    (c : Except ε Unit) (rr : Except ε Int) :
    (mainRunExc ε cwd c rr).1.head? =
      some (Event.println ("Current working dir: " ++ cwd.generic_string)) := by
  cases c <;> cases rr <;> rfl

/-- C10: `main` is deterministic relative to its environment: two
executions with the same working directory and the same run result produce
the same trace and the same return value, whatever the command-line
arguments. -/
theorem main_deterministic (cwd₁ cwd₂ : fs_path)
    (args₁ args₂ : List String) (r₁ r₂ : Int)
    (hcwd : cwd₁ = cwd₂) (hr : r₁ = r₂) :
    processRun cwd₁ args₁ r₁ = processRun cwd₂ args₂ r₂ := by
  subst hcwd; subst hr; rfl

/-- Witness for C10 at a concrete working directory, run result and pair
of argument vectors. -/
theorem main_deterministic_witness :
    processRun ⟨"", ["home", "user"]⟩ [] 0 =
      processRun ⟨"", ["home", "user"]⟩ ["--verbose"] 0 :=
  main_deterministic ⟨"", ["home", "user"]⟩ ⟨"", ["home", "user"]⟩
    [] ["--verbose"] 0 0 rfl rfl
